import Mathlib

/-!
Verification of the skip-vote coordinator of slack-spotify-playlift.

The development shallowly embeds the Redis-backed store (src/redis.js),
the `/process-skip` resolution handler, the `/skip` creation handler and
the `/emoji-callback` vote-mutation path (src/app.js), together with the
relevant behaviour of the Spotify and Slack wrappers (src/spotify.js,
src/slack.js).

Modelling conventions:
* Redis string keys holding JSON documents are modelled as `JVal` values
  (`JSON.stringify`/`JSON.parse` round-trips that representation exactly).
* Redis keys are colon-separated composites; channel ids (Slack `C…` ids)
  and skip ids (`Date.now().toString()`) never contain a colon, so keys
  are modelled as their segment lists (e.g. `["skipVote", ch, id]`).
* The Redis set keyspace is a total function defaulting to `[]`, matching
  `smembers` of a missing key returning the empty array.
* Network failures of collaborators are injected through an explicit
  environment (`Env`): a transient store fault on the vote load, a failing
  Spotify skip call, a failing Slack result post.
-/

namespace Playlift

/-- A JSON value, the image of `JSON.stringify` for the documents this
repository stores (objects of strings, booleans and nulls). -/
inductive JVal where
  | jnull
  | jbool (b : Bool)
  | jstr (s : String)
  | jobj (fields : List (String × JVal))

/-- First-match association-list lookup (model of keyed reads). -/
def alookup {κ α : Type} [DecidableEq κ] : List (κ × α) → κ → Option α
  | [], _ => none
  | (k, v) :: l, k' => if k' = k then some v else alookup l k'

/-- Remove every binding of a key (model of Redis `DEL`). -/
def aerase {κ α : Type} [DecidableEq κ] : List (κ × α) → κ → List (κ × α)
  | [], _ => []
  | (k, v) :: l, k' => if k = k' then aerase l k' else (k, v) :: aerase l k'

/-- Overwrite the binding of a key (model of Redis `SET`). -/
def aset {κ α : Type} [DecidableEq κ] (l : List (κ × α)) (k : κ) (v : α) :
    List (κ × α) :=
  (k, v) :: aerase l k

/-- Pointwise update of a total map. -/
def upd {κ α : Type} [DecidableEq κ] (f : κ → α) (k : κ) (v : α) : κ → α :=
  fun k' => if k' = k then v else f k'

/-- Field access on a parsed JSON document (`vote.messageTs` etc.). -/
def jField (j : JVal) (name : String) : Option JVal :=
  match j with
  | .jobj fs => alookup fs name
  | _ => none

/-- The metadata part of a skip-vote record, exactly the fields that
`/skip` constructs and `setSkipVote` serializes (src/app.js:246-253). -/
structure VoteMeta where
  id : String
  trackName : String
  artistName : String
  requestedBy : String
  messageTs : Option String
  resolved : Bool
deriving DecidableEq

/-- Serialization of the metadata document (`JSON.stringify(voteData)` in
`setSkipVote`, src/redis.js). -/
def encodeVoteMeta (m : VoteMeta) : JVal :=
  .jobj [("id", .jstr m.id),
         ("trackName", .jstr m.trackName),
         ("artistName", .jstr m.artistName),
         ("requestedBy", .jstr m.requestedBy),
         ("messageTs", match m.messageTs with | none => .jnull | some s => .jstr s),
         ("resolved", .jbool m.resolved)]

def asStr : Option JVal → Option String
  | some (.jstr s) => some s
  | _ => none

def asOptStr : Option JVal → Option (Option String)
  | some (.jstr s) => some (some s)
  | some .jnull => some none
  | _ => none

def asBool : Option JVal → Option Bool
  | some (.jbool b) => some b
  | _ => none

/-- The field reads the handlers perform on a parsed vote document
(`vote.id`, `vote.trackName`, …, `vote.resolved`). All stored documents
are written by `encodeVoteMeta`, so the reads always succeed on reachable
states. -/
def decodeVoteMeta (j : JVal) : Option VoteMeta := do
  let i ← asStr (jField j "id")
  let tn ← asStr (jField j "trackName")
  let an ← asStr (jField j "artistName")
  let rb ← asStr (jField j "requestedBy")
  let mts ← asOptStr (jField j "messageTs")
  let r ← asBool (jField j "resolved")
  pure { id := i, trackName := tn, artistName := an, requestedBy := rb,
         messageTs := mts, resolved := r }

/-- Idempotent set-member insertion (Redis `SADD` of one member). -/
def saddOne (s : List String) (u : String) : List String :=
  if u ∈ s then s else s ++ [u]

/-- Multi-member `SADD` (`sadd key ...Array.from(set)`). -/
def saddMany (s : List String) (us : List String) : List String :=
  us.foldl saddOne s

/-- Set-member removal (Redis `SREM`). -/
def sremOne (s : List String) (u : String) : List String :=
  s.filter (fun x => decide (x ≠ u))

/-- A decoded channel document (`channel:{channelId}`); `spotify` holds the
access token when the channel completed the Spotify OAuth flow. -/
structure Channel where
  slackChannelId : String
  spotify : Option String
deriving DecidableEq

/-- The shared keyed store (Redis). String keys are partitioned by their
tag segment (`skipVote:`, `channel:`, `team:`), so each keyspace is its
own map; set keys and TTLs are total maps over segment keys. -/
structure Store where
  votes : List (List String × JVal)
  channels : List (String × Channel)
  teams : List (String × String)
  sets : List String → List String
  ttl : List String → Option Nat

/-- TTL for skip votes, 15 minutes (src/redis.js `SKIP_VOTE_TTL`). -/
def SKIP_VOTE_TTL : Nat := 60 * 15

/-- Key `skipVote:{channelId}:{skipId}`. -/
def metaKey (channelId skipId : String) : List String :=
  ["skipVote", channelId, skipId]

/-- Key `skipVoteUsers:{skipId}:thumbsUp`. -/
def upKey (skipId : String) : List String :=
  ["skipVoteUsers", skipId, "thumbsUp"]

/-- Key `skipVoteUsers:{skipId}:thumbsDown`. -/
def downKey (skipId : String) : List String :=
  ["skipVoteUsers", skipId, "thumbsDown"]

/-- The full in-memory view of a skip vote that `getSkipVote` returns:
the spread metadata plus both membership sets. -/
structure SkipVote where
  id : String
  trackName : String
  artistName : String
  requestedBy : String
  messageTs : Option String
  resolved : Bool
  thumbsUpUsers : List String
  thumbsDownUsers : List String
deriving DecidableEq

/-- The metadata fields of a vote (what `setSkipVote` keeps after
destructuring away the two user sets). -/
def metaOf (v : SkipVote) : VoteMeta :=
  { id := v.id, trackName := v.trackName, artistName := v.artistName,
    requestedBy := v.requestedBy, messageTs := v.messageTs, resolved := v.resolved }

/-- `getSkipVote(channelId, skipId)` (src/redis.js:101-117): read the
metadata document, then attach the members of both per-polarity sets. -/
def getSkipVote (st : Store) (channelId skipId : String) : Option SkipVote :=
  match alookup st.votes (metaKey channelId skipId) with
  | none => none
  | some j =>
    match decodeVoteMeta j with
    | none => none
    | some m =>
      some { id := m.id, trackName := m.trackName, artistName := m.artistName,
             requestedBy := m.requestedBy, messageTs := m.messageTs,
             resolved := m.resolved,
             thumbsUpUsers := st.sets (upKey skipId),
             thumbsDownUsers := st.sets (downKey skipId) }

/-- `setSkipVote(channelId, skipId, vote)` (src/redis.js:119-139): store the
metadata with a 15-minute TTL, then `SADD` each nonempty user set and give
it the same TTL. -/
def setSkipVote (st : Store) (channelId skipId : String) (v : SkipVote) : Store :=
  let st1 : Store :=
    { st with
      votes := aset st.votes (metaKey channelId skipId) (encodeVoteMeta (metaOf v)),
      ttl := upd st.ttl (metaKey channelId skipId) (some SKIP_VOTE_TTL) }
  let st2 : Store :=
    if v.thumbsUpUsers.length > 0 then
      { st1 with
        sets := upd st1.sets (upKey skipId)
          (saddMany (st1.sets (upKey skipId)) v.thumbsUpUsers),
        ttl := upd st1.ttl (upKey skipId) (some SKIP_VOTE_TTL) }
    else st1
  if v.thumbsDownUsers.length > 0 then
    { st2 with
      sets := upd st2.sets (downKey skipId)
        (saddMany (st2.sets (downKey skipId)) v.thumbsDownUsers),
      ttl := upd st2.ttl (downKey skipId) (some SKIP_VOTE_TTL) }
  else st2

/-- `addThumbsUp(skipId, userId)` (src/redis.js:141-147): `SADD` then
refresh the TTL of the touched set key only. -/
def addThumbsUp (st : Store) (skipId userId : String) : Store :=
  { st with
    sets := upd st.sets (upKey skipId) (saddOne (st.sets (upKey skipId)) userId),
    ttl := upd st.ttl (upKey skipId) (some SKIP_VOTE_TTL) }

/-- `addThumbsDown(skipId, userId)` (src/redis.js:149-155). -/
def addThumbsDown (st : Store) (skipId userId : String) : Store :=
  { st with
    sets := upd st.sets (downKey skipId) (saddOne (st.sets (downKey skipId)) userId),
    ttl := upd st.ttl (downKey skipId) (some SKIP_VOTE_TTL) }

/-- `removeThumbsUp(skipId, userId)` (src/redis.js:157-160): `SREM`, no
TTL refresh. -/
def removeThumbsUp (st : Store) (skipId userId : String) : Store :=
  { st with
    sets := upd st.sets (upKey skipId) (sremOne (st.sets (upKey skipId)) userId) }

/-- `removeThumbsDown(skipId, userId)` (src/redis.js:162-165). -/
def removeThumbsDown (st : Store) (skipId userId : String) : Store :=
  { st with
    sets := upd st.sets (downKey skipId) (sremOne (st.sets (downKey skipId)) userId) }

/-- `deleteSkipVote(channelId, skipId)` (src/redis.js:167-174): one `DEL`
of the metadata key and both user-set keys. -/
def deleteSkipVote (st : Store) (channelId skipId : String) : Store :=
  { st with
    votes := aerase st.votes (metaKey channelId skipId),
    sets := upd (upd st.sets (upKey skipId) []) (downKey skipId) [],
    ttl := upd (upd (upd st.ttl (metaKey channelId skipId) none)
      (upKey skipId) none) (downKey skipId) none }

/-- The scan predicate `vote.messageTs === messageTs` on a raw document. -/
def matchesTs (j : JVal) (ts : String) : Bool :=
  match jField j "messageTs" with
  | some (.jstr s) => s == ts
  | _ => false

/-- The scan loop of `findSkipVoteByMessageTs`: on the first key whose
document matches the announcement ts, return `getSkipVote` of the skipId
extracted from the key (`key.split(':')[2]`). -/
def findLoop (st : Store) (channelId messageTs : String) :
    List (List String) → Option SkipVote
  | [] => none
  | k :: rest =>
    match alookup st.votes k with
    | none => findLoop st channelId messageTs rest
    | some j =>
      if matchesTs j messageTs then
        getSkipVote st channelId (k.getD 2 "undefined")
      else findLoop st channelId messageTs rest

/-- `findSkipVoteByMessageTs(channelId, messageTs)` (src/redis.js:176-193):
scan the keys matching `skipVote:{channelId}:*`, return the first vote
whose stored `messageTs` equals the announcement reference. Note: the
function itself performs no `resolved` check. -/
def findSkipVoteByMessageTs (st : Store) (channelId messageTs : String) :
    Option SkipVote :=
  findLoop st channelId messageTs
    ((st.votes.map Prod.fst).filter (fun k => (["skipVote", channelId]).isPrefixOf k))

/-- Vote polarity. -/
inductive Pol where
  | up
  | down
deriving DecidableEq

/-- One recognized reaction event (`reaction_added`/`reaction_removed`
with an up/down alias) as dispatched by `/emoji-callback`
(src/app.js:424-441). -/
structure Reaction where
  user : String
  pol : Pol
  added : Bool
deriving DecidableEq

/-- The store mutation `/emoji-callback` performs for one recognized
reaction event. -/
def applyReaction (st : Store) (skipId : String) (r : Reaction) : Store :=
  match r.pol, r.added with
  | .up, true => addThumbsUp st skipId r.user
  | .up, false => removeThumbsUp st skipId r.user
  | .down, true => addThumbsDown st skipId r.user
  | .down, false => removeThumbsDown st skipId r.user

/-- The set key of a polarity. -/
def polKey (skipId : String) : Pol → List String
  | .up => upKey skipId
  | .down => downKey skipId

/-- The outcome message posted at resolution (the two template strings of
src/app.js:356-361, kept structured). -/
inductive ResultMsg where
  | saved (trackName : String) (up down : Nat)
  | skippedTrack (trackName artistName : String) (up down : Nat)
deriving DecidableEq

/-- Observable side effects of the handlers. `loadVote` records a read of
vote state; the remaining constructors are outbound calls. -/
inductive Effect where
  | loadVote (channelId skipId : String)
  | skipTrackCall
  | postMsg (channel : String) (msg : ResultMsg)
  | postSkipVoteMsg (channel : String)
  | scheduleJob (delaySeconds : Nat) (channelId skipId teamId : String)
deriving DecidableEq

/-- Failure injection for the collaborators of `/process-skip`. -/
structure Env where
  storeFaultOnLoad : Bool
  skipFails : Bool
  postFails : Bool

/-- Result of one `/process-skip` delivery: the store afterwards, the side
effects performed, and the HTTP status returned to the trigger service
(200 acknowledges, 401 rejects, 500 asks for a retry). -/
structure PSResult where
  store : Store
  effects : List Effect
  status : Nat

/-- `spotify.skipTrack` (src/spotify.js:87-104): performs the skip call
and catches any downstream error itself, returning a success flag instead
of throwing. -/
def skipTrack (fails : Bool) : Bool :=
  !fails

/-- The tail of resolution (src/app.js:364-370): post the outcome message,
then delete the vote record and its sets. A failing post throws, so the
catch block returns 500 with no deletion performed. -/
def finishResolution (env : Env) (st : Store) (channelId skipId : String)
    (ch : Channel) (effs : List Effect) (msg : ResultMsg) : PSResult :=
  if env.postFails then
    { store := st, effects := effs, status := 500 }
  else
    { store := deleteSkipVote st channelId skipId,
      effects := effs ++ [.postMsg ch.slackChannelId msg],
      status := 200 }

/-- The body of `POST /process-skip` after signature verification
(src/app.js:323-375): team token, channel, vote load (with a possible
transient store fault), resolved check, tally, decision (`upvotes >=
downvotes` keeps the track), side effects, cleanup. -/
def processSkip (env : Env) (st : Store) (channelId skipId teamId : String) :
    PSResult :=
  match alookup st.teams teamId with
  | none => { store := st, effects := [], status := 500 }
  | some _ =>
    match alookup st.channels channelId with
    | none => { store := st, effects := [], status := 200 }
    | some ch =>
      if env.storeFaultOnLoad then
        { store := st, effects := [], status := 500 }
      else
        match getSkipVote st channelId skipId with
        | none => { store := st, effects := [.loadVote channelId skipId], status := 200 }
        | some v =>
          if v.resolved then
            { store := st, effects := [.loadVote channelId skipId], status := 200 }
          else
            let u := v.thumbsUpUsers.length
            let d := v.thumbsDownUsers.length
            if u ≥ d then
              finishResolution env st channelId skipId ch
                [.loadVote channelId skipId] (.saved v.trackName u d)
            else
              match ch.spotify with
              | none => { store := st, effects := [.loadVote channelId skipId], status := 500 }
              | some _ =>
                let _ok := skipTrack env.skipFails
                finishResolution env st channelId skipId ch
                  [.loadVote channelId skipId, .skipTrackCall]
                  (.skippedTrack v.trackName v.artistName u d)

/-- `POST /process-skip` including the QStash signature gate
(src/app.js:299-321): when signing keys are configured, a missing or
invalid signature is rejected with 401 before anything is read. -/
def handleProcessSkip (receiverConfigured : Bool) (sig : Option String)
    (sigValid : Bool) (env : Env) (st : Store)
    (channelId skipId teamId : String) : PSResult :=
  if receiverConfigured then
    match sig with
    | none => { store := st, effects := [], status := 401 }
    | some _ =>
      if sigValid then processSkip env st channelId skipId teamId
      else { store := st, effects := [], status := 401 }
  else processSkip env st channelId skipId teamId

/-- The currently-playing lookup result used by `/skip`
(`spotify.getCurrentlyPlayingTrack`). -/
structure CurrentTrack where
  trackName : String
  artistName : String
deriving DecidableEq

/-- Environment of a `/skip` invocation: whether QStash is configured, the
currently-playing answer, `Date.now()`, and the ts Slack assigns to the
announcement. -/
structure SkipEnv where
  qstashConfigured : Bool
  currentTrack : Option CurrentTrack
  now : Nat
  postedTs : String

/-- The body of `POST /skip` (src/app.js:210-293): guards, then create the
vote record with empty sets, post the announcement, persist, and schedule
the 10-second resolution trigger. The ephemeral reply text is returned.
The JS guard `!currentTrack || !currentTrack.trackName` also fires on an
empty track name (falsy string). -/
def skipCommand (env : SkipEnv) (st : Store)
    (channelId userName teamId : String) : Store × List Effect × String :=
  match alookup st.teams teamId with
  | none => (st, [], "App not installed in this workspace. Please install at /slack/install")
  | some _ =>
    match alookup st.channels channelId with
    | none => (st, [], "Channel is not connected to Spotify. Use /connect first.")
    | some ch =>
      match ch.spotify with
      | none => (st, [], "Channel is not connected to Spotify. Use /connect first.")
      | some _ =>
        if !env.qstashConfigured then
          (st, [], "QStash is not configured. Please set QSTASH_TOKEN environment variable.")
        else
          match env.currentTrack with
          | none => (st, [], "No song is currently playing.")
          | some t =>
            if t.trackName = "" then
              (st, [], "No song is currently playing.")
            else
              let skipId := toString env.now
              let vote : SkipVote :=
                { id := skipId, trackName := t.trackName, artistName := t.artistName,
                  requestedBy := userName, messageTs := some env.postedTs,
                  resolved := false, thumbsUpUsers := [], thumbsDownUsers := [] }
              let st' := setSkipVote st channelId skipId vote
              (st',
               [.postSkipVoteMsg ch.slackChannelId,
                .scheduleJob 10 channelId skipId teamId],
               "Skip vote started")

/-- Spec-side notion for C5: the polarity vote recorded by the most
recent event of a user, scanning from the chronologically last event
(the tail of the fold order) backwards. -/
def lastVote : List Reaction → Pol → String → Option Bool
  | [], _, _ => none
  | r :: rs, p, u =>
    match lastVote rs p u with
    | some b => some b
    | none => if r.pol = p ∧ r.user = u then some r.added else none

/-- Spec-side notion for C5: the distinct users whose most recent event
for the polarity was an add. -/
def usersWithFinalAdd (rs : List Reaction) (p : Pol) : List String :=
  ((rs.map Reaction.user).dedup).filter (fun u => decide (lastVote rs p u = some true))

/-! Concrete sample inputs used by the closed witness theorems. -/

def okEnv : Env :=
  { storeFaultOnLoad := false, skipFails := false, postFails := false }

def faultEnv : Env :=
  { storeFaultOnLoad := true, skipFails := false, postFails := false }

def postFailEnv : Env :=
  { storeFaultOnLoad := false, skipFails := false, postFails := true }

def skipFailEnv : Env :=
  { storeFaultOnLoad := false, skipFails := true, postFails := false }

def sampleMeta : VoteMeta :=
  { id := "42", trackName := "Song A", artistName := "Artist A",
    requestedBy := "dev", messageTs := some "111.22", resolved := false }

def sampleVote : SkipVote :=
  { id := "42", trackName := "Song A", artistName := "Artist A",
    requestedBy := "dev", messageTs := some "111.22", resolved := false,
    thumbsUpUsers := ["U1", "U2"], thumbsDownUsers := ["U3"] }

def wSets : List String → List String :=
  fun k => if k = upKey "42" then ["U1", "U2"]
           else if k = downKey "42" then ["U3"] else []

def wChannel : Channel :=
  { slackChannelId := "C1", spotify := some "tok" }

/-- A store holding one live vote (two upvoters, one downvoter). -/
def wStore : Store :=
  { votes := [(metaKey "C1" "42", encodeVoteMeta sampleMeta)],
    channels := [("C1", wChannel)],
    teams := [("T1", "xoxb-token")],
    sets := wSets,
    ttl := fun _ => none }

/-- A store with the installation present but no vote record. -/
def wStoreNoVote : Store :=
  { votes := [],
    channels := [("C1", wChannel)],
    teams := [("T1", "xoxb-token")],
    sets := fun _ => [],
    ttl := fun _ => none }

/-- `/skip` environment with nothing currently playing. -/
def noTrackEnv : SkipEnv :=
  { qstashConfigured := true, currentTrack := none, now := 0, postedTs := "0.1" }

/-- A sample reaction history with duplicates, removals and removals of
non-members across both polarities. -/
def wReactions : List Reaction :=
  [⟨"A", .up, true⟩, ⟨"A", .up, true⟩, ⟨"B", .down, true⟩,
   ⟨"A", .up, false⟩, ⟨"C", .up, true⟩, ⟨"B", .down, false⟩,
   ⟨"D", .down, true⟩, ⟨"E", .up, false⟩]

/-- An entirely empty store. -/
def emptyStore : Store :=
  { votes := [], channels := [], teams := [], sets := fun _ => [],
    ttl := fun _ => none }

def resolvedMeta : VoteMeta :=
  { id := "42", trackName := "Song A", artistName := "Artist A",
    requestedBy := "dev", messageTs := some "111.22", resolved := true }

/-- A store holding one vote flagged `resolved`. -/
def wStoreResolved : Store :=
  { votes := [(metaKey "C1" "42", encodeVoteMeta resolvedMeta)],
    channels := [], teams := [], sets := fun _ => [], ttl := fun _ => none }

/-- A store whose vote metadata key is mid-life (TTL 120 s remaining). -/
def wStoreTtl : Store :=
  { votes := [(metaKey "C1" "42", encodeVoteMeta sampleMeta)],
    channels := [], teams := [], sets := fun _ => [],
    ttl := fun k => if k = metaKey "C1" "42" then some 120 else none }

/-! ## Basic lemmas about the store primitives -/

@[simp] theorem upd_self {κ α : Type} [DecidableEq κ] (f : κ → α) (k : κ) (v : α) :
    upd f k v k = v := by
  simp [upd]

theorem upd_ne {κ α : Type} [DecidableEq κ] (f : κ → α) (k k' : κ) (v : α)
    (h : k' ≠ k) : upd f k v k' = f k' := by
  simp [upd, h]

@[simp] theorem alookup_aset_self {κ α : Type} [DecidableEq κ]
    (l : List (κ × α)) (k : κ) (v : α) : alookup (aset l k v) k = some v := by
  simp [aset, alookup]

@[simp] theorem alookup_aerase_self {κ α : Type} [DecidableEq κ]
    (l : List (κ × α)) (k : κ) : alookup (aerase l k) k = none := by
  induction l with
  | nil => simp [aerase, alookup]
  | cons p l ih =>
    obtain ⟨k0, v0⟩ := p
    by_cases h : k0 = k
    · simpa [aerase, h] using ih
    · have h' : k ≠ k0 := fun hh => h hh.symm
      simp [aerase, h, alookup, h', ih]

theorem alookup_aerase_ne {κ α : Type} [DecidableEq κ]
    (l : List (κ × α)) (k k' : κ) (h : k' ≠ k) :
    alookup (aerase l k) k' = alookup l k' := by
  induction l with
  | nil => simp [aerase]
  | cons p l ih =>
    obtain ⟨k0, v0⟩ := p
    by_cases h0 : k0 = k
    · subst h0
      simp [aerase, alookup, h, ih]
    · simp [aerase, h0, alookup, ih]

theorem alookup_mem {κ α : Type} [DecidableEq κ] {l : List (κ × α)} {k : κ} {v : α}
    (h : alookup l k = some v) : (k, v) ∈ l := by
  induction l with
  | nil => simp [alookup] at h
  | cons p l ih =>
    obtain ⟨k0, v0⟩ := p
    rw [alookup] at h
    by_cases hk : k = k0
    · rw [if_pos hk] at h
      cases h
      rw [hk]
      exact List.mem_cons_self _ _
    · rw [if_neg hk] at h
      exact List.mem_cons_of_mem _ (ih h)

@[simp] theorem decode_encode_voteMeta (m : VoteMeta) :
    decodeVoteMeta (encodeVoteMeta m) = some m := by
  cases m with
  | mk i tn an rb mts r => cases mts <;> rfl

theorem mem_saddOne {s : List String} {u v : String} :
    u ∈ saddOne s v ↔ u = v ∨ u ∈ s := by
  by_cases h : v ∈ s
  · simp only [saddOne, if_pos h]
    constructor
    · exact fun hu => Or.inr hu
    · rintro (rfl | hu)
      · exact h
      · exact hu
  · simp [saddOne, if_neg h, or_comm]

theorem mem_sremOne {s : List String} {u v : String} :
    u ∈ sremOne s v ↔ u ≠ v ∧ u ∈ s := by
  simp [sremOne, List.mem_filter, and_comm]

theorem saddOne_of_mem {s : List String} {u : String} (h : u ∈ s) :
    saddOne s u = s := by
  simp [saddOne, h]

theorem sremOne_of_not_mem {s : List String} {u : String} (h : u ∉ s) :
    sremOne s u = s := by
  apply List.filter_eq_self.mpr
  intro a ha
  simp only [decide_eq_true_eq]
  intro rfl_eq
  exact h (rfl_eq ▸ ha)

theorem nodup_saddOne {s : List String} {u : String} (h : s.Nodup) :
    (saddOne s u).Nodup := by
  by_cases hm : u ∈ s
  · simpa [saddOne, hm] using h
  · simp only [saddOne, if_neg hm]
    refine List.Nodup.append h (List.nodup_singleton u) ?_
    intro a ha hb
    rw [List.mem_singleton] at hb
    exact hm (hb ▸ ha)

theorem nodup_sremOne {s : List String} {u : String} (h : s.Nodup) :
    (sremOne s u).Nodup :=
  List.Nodup.filter _ h

theorem mem_saddMany {s : List String} {us : List String} {u : String} :
    u ∈ saddMany s us ↔ u ∈ s ∨ u ∈ us := by
  induction us generalizing s with
  | nil => simp [saddMany]
  | cons v vs ih =>
    have h1 : saddMany s (v :: vs) = saddMany (saddOne s v) vs := rfl
    rw [h1, ih, mem_saddOne, List.mem_cons]
    tauto

theorem nodup_saddMany {s : List String} {us : List String} (h : s.Nodup) :
    (saddMany s us).Nodup := by
  induction us generalizing s with
  | nil => simpa [saddMany]
  | cons v vs ih => exact ih (nodup_saddOne h)

theorem upKey_ne_downKey (skipId : String) : upKey skipId ≠ downKey skipId := by
  simp [upKey, downKey]

theorem metaKey_ne_upKey (channelId skipId skipId' : String) :
    metaKey channelId skipId ≠ upKey skipId' := by
  simp [metaKey, upKey]

theorem metaKey_ne_downKey (channelId skipId skipId' : String) :
    metaKey channelId skipId ≠ downKey skipId' := by
  simp [metaKey, downKey]

/-! ## Resolution: the main run lemma -/

/-- Shared characterization of a `/process-skip` delivery that reaches the
decision point with a working store and a working Slack post. -/
theorem processSkip_run (env : Env) (st : Store)
    (channelId skipId teamId btok sp : String) (ch : Channel) (v : SkipVote)
    (henv : env.storeFaultOnLoad = false) (hpost : env.postFails = false)
    (hteam : alookup st.teams teamId = some btok)
    (hch : alookup st.channels channelId = some ch)
    (hsp : ch.spotify = some sp)
    (hv : getSkipVote st channelId skipId = some v)
    (hres : v.resolved = false) :
    processSkip env st channelId skipId teamId =
      if v.thumbsUpUsers.length ≥ v.thumbsDownUsers.length then
        { store := deleteSkipVote st channelId skipId,
          effects := [.loadVote channelId skipId,
            .postMsg ch.slackChannelId
              (.saved v.trackName v.thumbsUpUsers.length v.thumbsDownUsers.length)],
          status := 200 }
      else
        { store := deleteSkipVote st channelId skipId,
          effects := [.loadVote channelId skipId, .skipTrackCall,
            .postMsg ch.slackChannelId
              (.skippedTrack v.trackName v.artistName
                v.thumbsUpUsers.length v.thumbsDownUsers.length)],
          status := 200 } := by
  by_cases hud : v.thumbsUpUsers.length ≥ v.thumbsDownUsers.length
  · simp [processSkip, hteam, hch, henv, hv, hres, hud, hsp, finishResolution, hpost]
  · simp [processSkip, hteam, hch, henv, hv, hres, hud, hsp, finishResolution, hpost]

/-- Shared characterization of a `/process-skip` delivery that finds no
vote record: acknowledged with 200, store untouched. -/
theorem processSkip_of_absent (env : Env) (st : Store)
    (channelId skipId teamId btok : String) (ch : Channel)
    (henv : env.storeFaultOnLoad = false)
    (hteam : alookup st.teams teamId = some btok)
    (hch : alookup st.channels channelId = some ch)
    (hv : getSkipVote st channelId skipId = none) :
    processSkip env st channelId skipId teamId
      = { store := st, effects := [.loadVote channelId skipId], status := 200 } := by
  simp [processSkip, hteam, hch, henv, hv]

/-- C1: at resolution with frozen counts `u` upvoters and `d` downvoters,
the outcome is "skipped" iff `d > u`; it is "kept" whenever `u ≥ d`
(ties keep the track); the skip side effect happens exactly in the
"skipped" case. -/
theorem processSkip_decision_rule (env : Env) (st : Store)
    (channelId skipId teamId btok sp : String) (ch : Channel) (v : SkipVote)
    (henv : env.storeFaultOnLoad = false) (hpost : env.postFails = false)
    (hteam : alookup st.teams teamId = some btok)
    (hch : alookup st.channels channelId = some ch)
    (hsp : ch.spotify = some sp)
    (hv : getSkipVote st channelId skipId = some v)
    (hres : v.resolved = false) :
    (Effect.skipTrackCall ∈ (processSkip env st channelId skipId teamId).effects
       ↔ v.thumbsDownUsers.length > v.thumbsUpUsers.length)
    ∧ (Effect.postMsg ch.slackChannelId
         (.skippedTrack v.trackName v.artistName
            v.thumbsUpUsers.length v.thumbsDownUsers.length)
         ∈ (processSkip env st channelId skipId teamId).effects
       ↔ v.thumbsDownUsers.length > v.thumbsUpUsers.length)
    ∧ (Effect.postMsg ch.slackChannelId
         (.saved v.trackName v.thumbsUpUsers.length v.thumbsDownUsers.length)
         ∈ (processSkip env st channelId skipId teamId).effects
       ↔ v.thumbsUpUsers.length ≥ v.thumbsDownUsers.length) := by
  rw [processSkip_run env st channelId skipId teamId btok sp ch v
    henv hpost hteam hch hsp hv hres]
  by_cases hud : v.thumbsUpUsers.length ≥ v.thumbsDownUsers.length
  · rw [if_pos hud]
    refine ⟨?_, ?_, ?_⟩ <;> simp <;> omega
  · rw [if_neg hud]
    refine ⟨?_, ?_, ?_⟩ <;> simp <;> omega

/-- C1 witness at the sample store (2 upvotes, 1 downvote: kept). -/
theorem processSkip_decision_rule_witness :
    (Effect.skipTrackCall ∈ (processSkip okEnv wStore "C1" "42" "T1").effects
       ↔ sampleVote.thumbsDownUsers.length > sampleVote.thumbsUpUsers.length)
    ∧ (Effect.postMsg wChannel.slackChannelId
         (.skippedTrack sampleVote.trackName sampleVote.artistName
            sampleVote.thumbsUpUsers.length sampleVote.thumbsDownUsers.length)
         ∈ (processSkip okEnv wStore "C1" "42" "T1").effects
       ↔ sampleVote.thumbsDownUsers.length > sampleVote.thumbsUpUsers.length)
    ∧ (Effect.postMsg wChannel.slackChannelId
         (.saved sampleVote.trackName
            sampleVote.thumbsUpUsers.length sampleVote.thumbsDownUsers.length)
         ∈ (processSkip okEnv wStore "C1" "42" "T1").effects
       ↔ sampleVote.thumbsUpUsers.length ≥ sampleVote.thumbsDownUsers.length) :=
  processSkip_decision_rule okEnv wStore "C1" "42" "T1" "xoxb-token" "tok"
    wChannel sampleVote rfl rfl rfl rfl rfl rfl rfl

/-- C2: once a resolution has completed (record and sets deleted), every
subsequent `/process-skip` delivery for the same vote is a no-op: no skip
command, no second outcome post, no store mutation; it observes the
record as absent and acknowledges. -/
theorem processSkip_idempotent_after_resolution (env env2 : Env) (st : Store)
    (channelId skipId teamId btok sp : String) (ch : Channel) (v : SkipVote)
    (henv : env.storeFaultOnLoad = false) (hpost : env.postFails = false)
    (hteam : alookup st.teams teamId = some btok)
    (hch : alookup st.channels channelId = some ch)
    (hsp : ch.spotify = some sp)
    (hv : getSkipVote st channelId skipId = some v)
    (hres : v.resolved = false)
    (henv2 : env2.storeFaultOnLoad = false) :
    ((processSkip env2 (processSkip env st channelId skipId teamId).store
        channelId skipId teamId).store
      = (processSkip env st channelId skipId teamId).store)
    ∧ ((processSkip env2 (processSkip env st channelId skipId teamId).store
        channelId skipId teamId).status = 200)
    ∧ Effect.skipTrackCall ∉ (processSkip env2
        (processSkip env st channelId skipId teamId).store
        channelId skipId teamId).effects
    ∧ (∀ c m, Effect.postMsg c m ∉ (processSkip env2
        (processSkip env st channelId skipId teamId).store
        channelId skipId teamId).effects) := by
  have h1 : (processSkip env st channelId skipId teamId).store
      = deleteSkipVote st channelId skipId := by
    rw [processSkip_run env st channelId skipId teamId btok sp ch v
      henv hpost hteam hch hsp hv hres]
    by_cases hud : v.thumbsUpUsers.length ≥ v.thumbsDownUsers.length
    · rw [if_pos hud]
    · rw [if_neg hud]
  have hgv : getSkipVote (deleteSkipVote st channelId skipId) channelId skipId
      = none := by
    simp [getSkipVote, deleteSkipVote]
  have h2 := processSkip_of_absent env2 (deleteSkipVote st channelId skipId)
    channelId skipId teamId btok ch henv2 hteam hch hgv
  rw [h1, h2]
  refine ⟨rfl, rfl, ?_, ?_⟩
  · simp
  · intro c m
    simp

/-- C2 witness: duplicate delivery after the sample vote resolves. -/
theorem processSkip_idempotent_after_resolution_witness :
    ((processSkip okEnv (processSkip okEnv wStore "C1" "42" "T1").store
        "C1" "42" "T1").store
      = (processSkip okEnv wStore "C1" "42" "T1").store)
    ∧ ((processSkip okEnv (processSkip okEnv wStore "C1" "42" "T1").store
        "C1" "42" "T1").status = 200)
    ∧ Effect.skipTrackCall ∉ (processSkip okEnv
        (processSkip okEnv wStore "C1" "42" "T1").store "C1" "42" "T1").effects
    ∧ (∀ c m, Effect.postMsg c m ∉ (processSkip okEnv
        (processSkip okEnv wStore "C1" "42" "T1").store "C1" "42" "T1").effects) :=
  processSkip_idempotent_after_resolution okEnv okEnv wStore "C1" "42" "T1"
    "xoxb-token" "tok" wChannel sampleVote rfl rfl rfl rfl rfl rfl rfl rfl

/-- C6: a genuinely absent vote record yields an acknowledged no-op
(status 200, nothing mutated, no side effect), while a transient store
fault on the load is surfaced as a retryable 500 with nothing mutated;
the two statuses are distinct, so the conditions are never conflated. -/
theorem processSkip_absent_vs_fault (envA envB : Env) (st : Store)
    (channelId skipId teamId btok : String) (ch : Channel)
    (hteam : alookup st.teams teamId = some btok)
    (hch : alookup st.channels channelId = some ch)
    (hA : envA.storeFaultOnLoad = false)
    (habsent : getSkipVote st channelId skipId = none)
    (hB : envB.storeFaultOnLoad = true) :
    ((processSkip envA st channelId skipId teamId).status = 200
      ∧ (processSkip envA st channelId skipId teamId).store = st
      ∧ Effect.skipTrackCall ∉ (processSkip envA st channelId skipId teamId).effects
      ∧ (∀ c m, Effect.postMsg c m ∉ (processSkip envA st channelId skipId teamId).effects))
    ∧ ((processSkip envB st channelId skipId teamId).status = 500
      ∧ (processSkip envB st channelId skipId teamId).store = st
      ∧ (processSkip envB st channelId skipId teamId).effects = []) := by
  have hA' := processSkip_of_absent envA st channelId skipId teamId btok ch
    hA hteam hch habsent
  have hB' : processSkip envB st channelId skipId teamId
      = { store := st, effects := [], status := 500 } := by
    simp [processSkip, hteam, hch, hB]
  rw [hA', hB']
  refine ⟨⟨rfl, rfl, ?_, ?_⟩, rfl, rfl, rfl⟩
  · simp
  · intro c m
    simp

/-- C6 witness: absent vote acknowledged, injected fault retried. -/
theorem processSkip_absent_vs_fault_witness :
    ((processSkip okEnv wStoreNoVote "C1" "42" "T1").status = 200
      ∧ (processSkip okEnv wStoreNoVote "C1" "42" "T1").store = wStoreNoVote
      ∧ Effect.skipTrackCall ∉ (processSkip okEnv wStoreNoVote "C1" "42" "T1").effects
      ∧ (∀ c m, Effect.postMsg c m ∉ (processSkip okEnv wStoreNoVote "C1" "42" "T1").effects))
    ∧ ((processSkip faultEnv wStoreNoVote "C1" "42" "T1").status = 500
      ∧ (processSkip faultEnv wStoreNoVote "C1" "42" "T1").store = wStoreNoVote
      ∧ (processSkip faultEnv wStoreNoVote "C1" "42" "T1").effects = []) :=
  processSkip_absent_vs_fault okEnv faultEnv wStoreNoVote "C1" "42" "T1"
    "xoxb-token" wChannel rfl rfl rfl rfl rfl

/-- C7: with signing keys configured, a delivery whose signature is
missing or fails verification is rejected with 401 while the store is
neither read (no vote-load effect) nor mutated. -/
theorem processSkip_unauthenticated_rejected (sig : Option String) (sigValid : Bool)
    (env : Env) (st : Store) (channelId skipId teamId : String)
    (h : sig = none ∨ sigValid = false) :
    handleProcessSkip true sig sigValid env st channelId skipId teamId
      = { store := st, effects := [], status := 401 } := by
  rcases h with rfl | hval
  · rfl
  · cases sig with
    | none => rfl
    | some s => simp [handleProcessSkip, hval]

/-- C7 witness: a missing signature is rejected untouched. -/
theorem processSkip_unauthenticated_rejected_witness :
    handleProcessSkip true none false okEnv wStore "C1" "42" "T1"
      = { store := wStore, effects := [], status := 401 } :=
  processSkip_unauthenticated_rejected none false okEnv wStore "C1" "42" "T1"
    (Or.inl rfl)

/-- C10: when the currently-playing lookup returns nothing (or a track
with an empty name), `/skip` replies with an informational message and
changes nothing: no vote record is written and no resolution trigger is
scheduled. -/
theorem skipCommand_no_current_track_noop (env : SkipEnv) (st : Store)
    (channelId userName teamId btok sp : String) (ch : Channel)
    (hteam : alookup st.teams teamId = some btok)
    (hch : alookup st.channels channelId = some ch)
    (hsp : ch.spotify = some sp)
    (hq : env.qstashConfigured = true)
    (htr : env.currentTrack = none
      ∨ ∃ t, env.currentTrack = some t ∧ t.trackName = "") :
    skipCommand env st channelId userName teamId
      = (st, [], "No song is currently playing.") := by
  rcases htr with hnone | ⟨t, ht, hname⟩
  · simp [skipCommand, hteam, hch, hsp, hq, hnone]
  · simp [skipCommand, hteam, hch, hsp, hq, ht, hname]

/-- C10 witness: nothing playing, nothing changes. -/
theorem skipCommand_no_current_track_noop_witness :
    skipCommand noTrackEnv wStore "C1" "dev" "T1"
      = (wStore, [], "No song is currently playing.") :=
  skipCommand_no_current_track_noop noTrackEnv wStore "C1" "dev" "T1"
    "xoxb-token" "tok" wChannel rfl rfl rfl rfl (Or.inl rfl)

/-- C3 counterexample: when the outcome announcement post fails, the
handler aborts with 500 and the vote record and its up-set are still in
the store — the claimed "bookkeeping still completes" fails for the
announcement-post half. -/
theorem processSkip_postFailure_blocks_cleanup_cex :
    (processSkip postFailEnv wStore "C1" "42" "T1").status = 500
    ∧ (alookup (processSkip postFailEnv wStore "C1" "42" "T1").store.votes
         (metaKey "C1" "42")).isSome = true
    ∧ (processSkip postFailEnv wStore "C1" "42" "T1").store.sets (upKey "42")
        = ["U1", "U2"] :=
  ⟨rfl, rfl, rfl⟩

/-- C3 amended: a failing downstream skip command (whose wrapper catches
its own error and returns a failure flag) does not prevent resolution
bookkeeping — the record and both sets are deleted, the outcome is still
posted and the delivery is acknowledged — for any value of the
skip-failure flag; only a failing announcement post aborts cleanup. -/
theorem processSkip_skipFailure_cleanup_completes (env : Env) (st : Store)
    (channelId skipId teamId btok sp : String) (ch : Channel) (v : SkipVote)
    (henv : env.storeFaultOnLoad = false) (hpost : env.postFails = false)
    (hteam : alookup st.teams teamId = some btok)
    (hch : alookup st.channels channelId = some ch)
    (hsp : ch.spotify = some sp)
    (hv : getSkipVote st channelId skipId = some v)
    (hres : v.resolved = false) :
    (processSkip env st channelId skipId teamId).status = 200
    ∧ alookup (processSkip env st channelId skipId teamId).store.votes
        (metaKey channelId skipId) = none
    ∧ (processSkip env st channelId skipId teamId).store.sets (upKey skipId) = []
    ∧ (processSkip env st channelId skipId teamId).store.sets (downKey skipId) = []
    ∧ (∃ m, Effect.postMsg ch.slackChannelId m
        ∈ (processSkip env st channelId skipId teamId).effects) := by
  rw [processSkip_run env st channelId skipId teamId btok sp ch v
    henv hpost hteam hch hsp hv hres]
  by_cases hud : v.thumbsUpUsers.length ≥ v.thumbsDownUsers.length
  · rw [if_pos hud]
    refine ⟨rfl, ?_, ?_, ?_, ?_⟩
    · simp [deleteSkipVote]
    · simp [deleteSkipVote, upd, upKey, downKey]
    · simp [deleteSkipVote]
    · exact ⟨.saved v.trackName v.thumbsUpUsers.length v.thumbsDownUsers.length,
        by simp⟩
  · rw [if_neg hud]
    refine ⟨rfl, ?_, ?_, ?_, ?_⟩
    · simp [deleteSkipVote]
    · simp [deleteSkipVote, upd, upKey, downKey]
    · simp [deleteSkipVote]
    · exact ⟨.skippedTrack v.trackName v.artistName
        v.thumbsUpUsers.length v.thumbsDownUsers.length, by simp⟩

/-- C3 witness: resolution with the skip command failing still cleans up
and acknowledges. -/
theorem processSkip_skipFailure_cleanup_completes_witness :
    (processSkip skipFailEnv wStore "C1" "42" "T1").status = 200
    ∧ alookup (processSkip skipFailEnv wStore "C1" "42" "T1").store.votes
        (metaKey "C1" "42") = none
    ∧ (processSkip skipFailEnv wStore "C1" "42" "T1").store.sets (upKey "42") = []
    ∧ (processSkip skipFailEnv wStore "C1" "42" "T1").store.sets (downKey "42") = []
    ∧ (∃ m, Effect.postMsg wChannel.slackChannelId m
        ∈ (processSkip skipFailEnv wStore "C1" "42" "T1").effects) :=
  processSkip_skipFailure_cleanup_completes skipFailEnv wStore "C1" "42" "T1"
    "xoxb-token" "tok" wChannel sampleVote rfl rfl rfl rfl rfl rfl rfl

/-- C8 counterexample: an `addThumbsUp` on a store whose metadata key is
mid-life (TTL 120 s) refreshes only the touched set key; the metadata
key's TTL stays at 120 s, not the claimed refreshed 900 s. -/
theorem addThumbsUp_no_meta_refresh_cex :
    (addThumbsUp wStoreTtl "42" "U1").ttl (metaKey "C1" "42") = some 120
    ∧ (addThumbsUp wStoreTtl "42" "U1").ttl (metaKey "C1" "42") ≠ some SKIP_VOTE_TTL
    ∧ (addThumbsUp wStoreTtl "42" "U1").ttl (upKey "42") = some SKIP_VOTE_TTL :=
  ⟨rfl, by decide, rfl⟩

/-- C8 amended: all three vote keys are written with the same 900-second
TTL class (`SKIP_VOTE_TTL = 60 * 15`): `setSkipVote` stamps the metadata
key and each nonempty membership set; an `applyReaction` add refreshes
only the touched polarity set's TTL and leaves every other key's TTL
(in particular the metadata key's) unchanged. -/
theorem ttl_class_and_refresh :
    SKIP_VOTE_TTL = 900
    ∧ (∀ st channelId skipId v,
        (setSkipVote st channelId skipId v).ttl (metaKey channelId skipId)
            = some SKIP_VOTE_TTL
        ∧ (v.thumbsUpUsers.length > 0 →
            (setSkipVote st channelId skipId v).ttl (upKey skipId)
              = some SKIP_VOTE_TTL)
        ∧ (v.thumbsDownUsers.length > 0 →
            (setSkipVote st channelId skipId v).ttl (downKey skipId)
              = some SKIP_VOTE_TTL))
    ∧ (∀ st skipId userId,
        (addThumbsUp st skipId userId).ttl (upKey skipId) = some SKIP_VOTE_TTL
        ∧ ∀ k, k ≠ upKey skipId →
            (addThumbsUp st skipId userId).ttl k = st.ttl k)
    ∧ (∀ st skipId userId,
        (addThumbsDown st skipId userId).ttl (downKey skipId) = some SKIP_VOTE_TTL
        ∧ ∀ k, k ≠ downKey skipId →
            (addThumbsDown st skipId userId).ttl k = st.ttl k) := by
  refine ⟨rfl, ?_, ?_, ?_⟩
  · intro st channelId skipId v
    refine ⟨?_, ?_, ?_⟩
    · by_cases hU : v.thumbsUpUsers.length > 0 <;>
        by_cases hD : v.thumbsDownUsers.length > 0 <;>
        simp [setSkipVote, hU, hD, upd, metaKey, upKey, downKey]
    · intro hU
      by_cases hD : v.thumbsDownUsers.length > 0 <;>
        simp [setSkipVote, hU, hD, upd, upKey, downKey]
    · intro hD
      by_cases hU : v.thumbsUpUsers.length > 0 <;>
        simp [setSkipVote, hU, hD, upd, upKey, downKey]
  · intro st skipId userId
    refine ⟨by simp [addThumbsUp], ?_⟩
    intro k hk
    simp [addThumbsUp, upd, hk]
  · intro st skipId userId
    refine ⟨by simp [addThumbsDown], ?_⟩
    intro k hk
    simp [addThumbsDown, upd, hk]

/-- C8 witness: the add refreshes the touched set key and leaves the
metadata key's TTL where it was. -/
theorem ttl_class_and_refresh_witness :
    (addThumbsUp wStoreTtl "42" "U1").ttl (upKey "42") = some SKIP_VOTE_TTL
    ∧ (addThumbsUp wStoreTtl "42" "U1").ttl (metaKey "C1" "42")
        = wStoreTtl.ttl (metaKey "C1" "42") :=
  ⟨(ttl_class_and_refresh.2.2.1 wStoreTtl "42" "U1").1,
   (ttl_class_and_refresh.2.2.1 wStoreTtl "42" "U1").2 (metaKey "C1" "42")
     (by decide)⟩

/-- C4 counterexample: `findSkipVoteByMessageTs` performs no `resolved`
check — on a store whose only vote is flagged resolved and matches the
announcement ts, it returns that record instead of none. -/
theorem findSkipVote_returns_resolved_cex :
    findSkipVoteByMessageTs wStoreResolved "C1" "111.22"
      = some { id := "42", trackName := "Song A", artistName := "Artist A",
               requestedBy := "dev", messageTs := some "111.22", resolved := true,
               thumbsUpUsers := [], thumbsDownUsers := [] }
    ∧ findSkipVoteByMessageTs wStoreResolved "C1" "111.22" ≠ none :=
  ⟨rfl, by decide⟩

/-- The scan loop finds nothing when no reachable document matches. -/
theorem findLoop_none (st : Store) (channelId messageTs : String)
    (ks : List (List String))
    (h : ∀ k ∈ ks, ∀ j, alookup st.votes k = some j →
      matchesTs j messageTs = false) :
    findLoop st channelId messageTs ks = none := by
  induction ks with
  | nil => rfl
  | cons k rest ih =>
    cases hk : alookup st.votes k with
    | none =>
      simp only [findLoop, hk]
      exact ih fun k' hk' => h k' (List.mem_cons_of_mem _ hk')
    | some j =>
      simp only [findLoop, hk, h k (List.mem_cons_self _ _) j hk,
        Bool.false_eq_true, if_false]
      exact ih fun k' hk' => h k' (List.mem_cons_of_mem _ hk')

/-- C4 amended: `findSkipVoteByMessageTs` returns none exactly when no
vote record in the channel's keyspace matches the announcement reference;
when the channel's single scoped key matches, the record is returned
regardless of its `resolved` flag (the `/emoji-callback` caller, not this
function, discards resolved matches). -/
theorem findSkipVote_match_behavior (st : Store) (channelId messageTs : String) :
    ((∀ k j, (k, j) ∈ st.votes → (["skipVote", channelId]).isPrefixOf k = true →
        matchesTs j messageTs = false) →
      findSkipVoteByMessageTs st channelId messageTs = none)
    ∧ (∀ skipId jv m,
        ((st.votes.map Prod.fst).filter
            (fun k => (["skipVote", channelId]).isPrefixOf k))
          = [metaKey channelId skipId] →
        alookup st.votes (metaKey channelId skipId) = some jv →
        matchesTs jv messageTs = true →
        decodeVoteMeta jv = some m →
        findSkipVoteByMessageTs st channelId messageTs
          = some { id := m.id, trackName := m.trackName,
                   artistName := m.artistName, requestedBy := m.requestedBy,
                   messageTs := m.messageTs, resolved := m.resolved,
                   thumbsUpUsers := st.sets (upKey skipId),
                   thumbsDownUsers := st.sets (downKey skipId) }) := by
  constructor
  · intro h
    apply findLoop_none
    intro k hk j hj
    have hkf := List.mem_filter.mp hk
    exact h k j (alookup_mem hj) hkf.2
  · intro skipId jv m hfilter hlook hmatch hdec
    have hgd : (metaKey channelId skipId).getD 2 "undefined" = skipId := rfl
    simp only [findSkipVoteByMessageTs, hfilter, findLoop, hlook, hmatch,
      if_true, hgd]
    simp [getSkipVote, hlook, hdec]

/-- C4 witness: an unresolved matching vote is found and returned. -/
theorem findSkipVote_match_behavior_witness :
    findSkipVoteByMessageTs wStore "C1" "111.22"
      = some { id := "42", trackName := "Song A", artistName := "Artist A",
               requestedBy := "dev", messageTs := some "111.22", resolved := false,
               thumbsUpUsers := ["U1", "U2"], thumbsDownUsers := ["U3"] } :=
  (findSkipVote_match_behavior wStore "C1" "111.22").2 "42"
    (encodeVoteMeta sampleMeta) sampleMeta rfl rfl rfl rfl

/-- C9: storing a vote with `setSkipVote` on fresh set keys and reading
it back with `getSkipVote` returns the same metadata fields and exactly
the supplied members of both polarity sets, through the JSON encoding
and the split of the sets into separate keys. -/
theorem setSkipVote_getSkipVote_roundtrip (st : Store) (channelId skipId : String)
    (v : SkipVote)
    (hup : st.sets (upKey skipId) = [])
    (hdown : st.sets (downKey skipId) = []) :
    ∃ w, getSkipVote (setSkipVote st channelId skipId v) channelId skipId = some w
      ∧ w.id = v.id ∧ w.trackName = v.trackName ∧ w.artistName = v.artistName
      ∧ w.requestedBy = v.requestedBy ∧ w.messageTs = v.messageTs
      ∧ w.resolved = v.resolved
      ∧ (∀ u, u ∈ w.thumbsUpUsers ↔ u ∈ v.thumbsUpUsers)
      ∧ (∀ u, u ∈ w.thumbsDownUsers ↔ u ∈ v.thumbsDownUsers)
      ∧ w.thumbsUpUsers.Nodup ∧ w.thumbsDownUsers.Nodup := by
  have hvotes : (setSkipVote st channelId skipId v).votes
      = aset st.votes (metaKey channelId skipId) (encodeVoteMeta (metaOf v)) := by
    by_cases hU : v.thumbsUpUsers.length > 0 <;>
      by_cases hD : v.thumbsDownUsers.length > 0 <;>
      simp [setSkipVote, hU, hD]
  have hup' : st.sets ["skipVoteUsers", skipId, "thumbsUp"] = [] := hup
  have hdown' : st.sets ["skipVoteUsers", skipId, "thumbsDown"] = [] := hdown
  have hsetsUp : (setSkipVote st channelId skipId v).sets (upKey skipId)
      = saddMany [] v.thumbsUpUsers := by
    by_cases hU : v.thumbsUpUsers.length > 0
    · by_cases hD : v.thumbsDownUsers.length > 0 <;>
        simp [setSkipVote, hU, hD, upd, upKey, downKey, hup']
    · have hnil : v.thumbsUpUsers = [] := List.length_eq_zero.mp (by omega)
      by_cases hD : v.thumbsDownUsers.length > 0 <;>
        simp [setSkipVote, hU, hD, upd, upKey, downKey, hup', hnil, saddMany]
  have hsetsDown : (setSkipVote st channelId skipId v).sets (downKey skipId)
      = saddMany [] v.thumbsDownUsers := by
    by_cases hD : v.thumbsDownUsers.length > 0
    · by_cases hU : v.thumbsUpUsers.length > 0 <;>
        simp [setSkipVote, hU, hD, upd, upKey, downKey, hdown']
    · have hnil : v.thumbsDownUsers = [] := List.length_eq_zero.mp (by omega)
      by_cases hU : v.thumbsUpUsers.length > 0 <;>
        simp [setSkipVote, hU, hD, upd, upKey, downKey, hdown', hnil, saddMany]
  refine ⟨{ id := v.id, trackName := v.trackName, artistName := v.artistName,
            requestedBy := v.requestedBy, messageTs := v.messageTs,
            resolved := v.resolved,
            thumbsUpUsers := saddMany [] v.thumbsUpUsers,
            thumbsDownUsers := saddMany [] v.thumbsDownUsers },
    ?_, rfl, rfl, rfl, rfl, rfl, rfl, ?_, ?_, ?_, ?_⟩
  · simp [getSkipVote, hvotes, hsetsUp, hsetsDown, metaOf]
  · intro u
    rw [mem_saddMany]
    simp
  · intro u
    rw [mem_saddMany]
    simp
  · exact nodup_saddMany List.nodup_nil
  · exact nodup_saddMany List.nodup_nil

/-- C9 witness: a concrete vote survives the store round trip. -/
theorem setSkipVote_getSkipVote_roundtrip_witness :
    ∃ w, getSkipVote (setSkipVote emptyStore "C1" "7" sampleVote) "C1" "7" = some w
      ∧ w.id = sampleVote.id ∧ w.trackName = sampleVote.trackName
      ∧ w.artistName = sampleVote.artistName
      ∧ w.requestedBy = sampleVote.requestedBy
      ∧ w.messageTs = sampleVote.messageTs
      ∧ w.resolved = sampleVote.resolved
      ∧ (∀ u, u ∈ w.thumbsUpUsers ↔ u ∈ sampleVote.thumbsUpUsers)
      ∧ (∀ u, u ∈ w.thumbsDownUsers ↔ u ∈ sampleVote.thumbsDownUsers)
      ∧ w.thumbsUpUsers.Nodup ∧ w.thumbsDownUsers.Nodup :=
  setSkipVote_getSkipVote_roundtrip emptyStore "C1" "7" sampleVote rfl rfl

/-- How one reaction event changes one polarity's member list. -/
theorem applyReaction_sets (st : Store) (skipId : String) (r : Reaction) (p : Pol) :
    (applyReaction st skipId r).sets (polKey skipId p)
      = if r.pol = p then
          (if r.added then saddOne (st.sets (polKey skipId p)) r.user
           else sremOne (st.sets (polKey skipId p)) r.user)
        else st.sets (polKey skipId p) := by
  obtain ⟨u, pol, added⟩ := r
  cases pol <;> cases added <;> cases p <;>
    simp [applyReaction, addThumbsUp, addThumbsDown, removeThumbsUp,
      removeThumbsDown, polKey, upd, upKey, downKey]

/-- Membership after folding a reaction history: decided by the user's
most recent event for the polarity, falling back to the initial state. -/
theorem mem_foldl_applyReaction (skipId : String) (p : Pol) (u : String)
    (rs : List Reaction) :
    ∀ st : Store,
      (u ∈ (rs.foldl (fun s r => applyReaction s skipId r) st).sets (polKey skipId p)
        ↔ lastVote rs p u = some true
          ∨ (lastVote rs p u = none ∧ u ∈ st.sets (polKey skipId p))) := by
  induction rs with
  | nil =>
    intro st
    simp [lastVote]
  | cons r rs ih =>
    intro st
    rw [List.foldl_cons, ih]
    cases hlv : lastVote rs p u with
    | some b =>
      have hcons : lastVote (r :: rs) p u = some b := by
        simp [lastVote, hlv]
      rw [hcons]
      simp
    | none =>
      have hcons : lastVote (r :: rs) p u
          = if r.pol = p ∧ r.user = u then some r.added else none := by
        simp [lastVote, hlv]
      rw [hcons, applyReaction_sets]
      by_cases hp : r.pol = p
      · by_cases hu : r.user = u
        · cases hadd : r.added <;>
            simp [hp, hu, hadd, mem_sremOne, mem_saddOne]
        · have hur : ¬ u = r.user := fun h => hu h.symm
          cases hadd : r.added <;>
            simp [hp, hu, hur, hadd, mem_sremOne, mem_saddOne]
      · simp [hp]

/-- Folding a reaction history keeps each member list duplicate-free. -/
theorem nodup_foldl_applyReaction (skipId : String) (p : Pol) (rs : List Reaction) :
    ∀ st : Store, (st.sets (polKey skipId p)).Nodup →
      ((rs.foldl (fun s r => applyReaction s skipId r) st).sets (polKey skipId p)).Nodup := by
  induction rs with
  | nil =>
    intro st h
    simpa using h
  | cons r rs ih =>
    intro st h
    rw [List.foldl_cons]
    apply ih
    rw [applyReaction_sets]
    split
    · split
      · exact nodup_saddOne h
      · exact nodup_sremOne h
    · exact h

theorem lastVote_mem_users {rs : List Reaction} {p : Pol} {u : String} {b : Bool}
    (h : lastVote rs p u = some b) : u ∈ rs.map Reaction.user := by
  induction rs generalizing b with
  | nil => simp [lastVote] at h
  | cons r rs ih =>
    rw [List.map_cons]
    cases hlv : lastVote rs p u with
    | some b' => exact List.mem_cons_of_mem _ (ih hlv)
    | none =>
      rw [lastVote, hlv] at h
      by_cases hr : r.pol = p ∧ r.user = u
      · rw [← hr.2]
        exact List.mem_cons_self _ _
      · rw [if_neg hr] at h
        simp at h

theorem mem_usersWithFinalAdd {rs : List Reaction} {p : Pol} {u : String} :
    u ∈ usersWithFinalAdd rs p ↔ lastVote rs p u = some true := by
  simp only [usersWithFinalAdd, List.mem_filter, List.mem_dedup, decide_eq_true_eq]
  exact ⟨fun h => h.2, fun h => ⟨lastVote_mem_users h, h⟩⟩

theorem nodup_usersWithFinalAdd (rs : List Reaction) (p : Pol) :
    (usersWithFinalAdd rs p).Nodup :=
  List.Nodup.filter _ (List.nodup_dedup _)

/-- C5: folding any reaction history (any order, repetition, mix of
adds/removes and users) over a fresh vote leaves each polarity set with
cardinality equal to the number of distinct users whose most recent event
for that polarity was an add; adding a present member and removing an
absent member are set-level no-ops. -/
theorem applyReaction_counts (skipId : String) (st : Store) (rs : List Reaction)
    (hup : st.sets (upKey skipId) = [])
    (hdown : st.sets (downKey skipId) = []) :
    (((rs.foldl (fun s r => applyReaction s skipId r) st).sets (upKey skipId)).length
        = (usersWithFinalAdd rs .up).length
      ∧ ((rs.foldl (fun s r => applyReaction s skipId r) st).sets (downKey skipId)).length
        = (usersWithFinalAdd rs .down).length)
    ∧ (∀ s u, u ∈ s → saddOne s u = s)
    ∧ (∀ s u, u ∉ s → sremOne s u = s) := by
  have key : ∀ p : Pol,
      ((rs.foldl (fun s r => applyReaction s skipId r) st).sets (polKey skipId p)).length
        = (usersWithFinalAdd rs p).length := by
    intro p
    have hinit : st.sets (polKey skipId p) = [] := by
      cases p
      · exact hup
      · exact hdown
    have hnd : ((rs.foldl (fun s r => applyReaction s skipId r) st).sets
        (polKey skipId p)).Nodup := by
      apply nodup_foldl_applyReaction
      rw [hinit]
      exact List.nodup_nil
    have hmm : ∀ u,
        u ∈ (rs.foldl (fun s r => applyReaction s skipId r) st).sets (polKey skipId p)
          ↔ u ∈ usersWithFinalAdd rs p := by
      intro u
      rw [mem_foldl_applyReaction skipId p u rs st, mem_usersWithFinalAdd, hinit]
      simp
    exact ((List.perm_ext_iff_of_nodup hnd
      (nodup_usersWithFinalAdd rs p)).mpr hmm).length_eq
  exact ⟨⟨key .up, key .down⟩,
    fun s u h => saddOne_of_mem h, fun s u h => sremOne_of_not_mem h⟩

/-- C5 witness: a concrete history with duplicate adds, a retracted vote
and removals of non-members. -/
theorem applyReaction_counts_witness :
    (((wReactions.foldl (fun s r => applyReaction s "7" r) emptyStore).sets
          (upKey "7")).length
        = (usersWithFinalAdd wReactions .up).length
      ∧ ((wReactions.foldl (fun s r => applyReaction s "7" r) emptyStore).sets
          (downKey "7")).length
        = (usersWithFinalAdd wReactions .down).length)
    ∧ (∀ s u, u ∈ s → saddOne s u = s)
    ∧ (∀ s u, u ∉ s → sremOne s u = s) :=
  applyReaction_counts "7" emptyStore wReactions rfl rfl

end Playlift
